import Mathlib

/-!
Shallow embedding of `replicator/runner.go` (package `replicator`).

External collaborators (the Nomad client, the Consul client and the AWS
client) are modelled by an environment record that fixes, per pass, the
answer of every collaborator call.  Calls made inside the scale-out retry
loop (`GetMostRecentInstance`, `VerifyNodeHealth`, `TranslateIptoID`) are
indexed by the attempt number, so that successive iterations may receive
different answers, exactly as the real collaborators may give them.

Wall-clock time is modelled as a natural number; `0` plays the role of the
Go zero `time.Time` value (`LastScalingEvent.IsZero()` becomes `= 0`).

Every collaborator call issued by a pass is recorded, in program order, in
a trace (`List Call`).  The two metric counters
(`cluster.scale_out_success`, `cluster.scale_out_failed`) are recorded as
a `Bool` and a `Nat` in the pass result.  Errors of `DetachInstance` and
`TerminateInstance` are only logged by the Go code and influence nothing,
so the corresponding `Env` fields are carried but never read.
-/

namespace Replicator

/-- `client.ScalingDirectionOut / In / None` (constants of the client
package). -/
inductive ScalingDirection where
  | dOut
  | dIn
  | dNone
deriving DecidableEq, Repr

/-- `structs.ClusterScalingConfig`: the fields of `Config.ClusterScaling`
read or written by `runner.go`. -/
structure ClusterScalingConfig where
  enabled : Bool
  coolDown : Nat
  retryThreshold : Nat
  autoscalingGroup : String
deriving DecidableEq, Repr

/-- `structs.JobScalingConfig`: the field of `Config.JobScaling` read by
`runner.go`. -/
structure JobScalingConfig where
  enabled : Bool
deriving DecidableEq, Repr

/-- `structs.Config`: the fields read or written by `runner.go`. -/
structure Config where
  region : String
  scalingInterval : Nat
  clusterScaling : ClusterScalingConfig
  jobScaling : JobScalingConfig
deriving DecidableEq, Repr

/-- `structs.ScalingState` (runner.go lines 36-37 initialize it;
the cluster-scaling pass mutates it). -/
structure ScalingState where
  nodeFailureCount : Nat
  lastScalingEvent : Nat
deriving DecidableEq, Repr

/-- `&structs.ScalingState{}` as built in `Start` (runner.go line 37):
zero failure count, zero-value timestamp. -/
def initialScalingState : ScalingState :=
  { nodeFailureCount := 0, lastScalingEvent := 0 }

/-- One collaborator call, with the arguments the Go code passes. -/
inductive Call where
  | leaderCheck
  | describeAWSRegion
  | evaluateClusterCapacity
  | scaleOutCluster (asg : String)
  | getMostRecentInstance (asg region : String)
  | verifyNodeHealth (node : String)
  | translateIptoID (node region : String)
  | detachInstance (asg instanceID : String)
  | terminateInstance (instanceID region : String)
  | leastAllocatedNode
  | drainNode (nodeID : String)
  | scaleInCluster (asg nodeIP : String)
  | getJobScalingPolicies
  | evaluateJobScaling
  | jobScale (jobName : String)
deriving DecidableEq, Repr

/-- Collaborator calls that mutate external state (cloud instance-group
mutation, node drain, workload scale submission); the rest are reads. -/
def Call.isMutation : Call → Bool
  | Call.scaleOutCluster _ => true
  | Call.scaleInCluster _ _ => true
  | Call.terminateInstance _ _ => true
  | Call.detachInstance _ _ => true
  | Call.drainNode _ => true
  | Call.jobScale _ => true
  | _ => false

/-- The identification call of a retry-loop attempt. -/
def Call.isIdentification : Call → Bool
  | Call.getMostRecentInstance _ _ => true
  | _ => false

def Call.isJobScale : Call → Bool
  | Call.jobScale _ => true
  | _ => false

/-- The mutating calls of a trace. -/
def mutationCalls (calls : List Call) : List Call :=
  calls.filter Call.isMutation

/-- Number of instance attempts (identification calls) in a trace. -/
def attemptCount (calls : List Call) : Nat :=
  calls.countP fun c => c.isIdentification

/-- Environment of one cluster-scaling pass: the answer of every
collaborator call the pass may make.  Retry-loop calls are indexed by the
attempt number. -/
structure Env where
  haveLeadership : Bool
  /-- `client.DescribeAWSRegion()`: `some region` on success, `none` on
  error. -/
  describeAWSRegion : Option String
  /-- `EvaluateClusterCapacity` returned a non-nil error. -/
  evaluateErr : Bool
  /-- The `scale` boolean returned by `EvaluateClusterCapacity`. -/
  evaluateScale : Bool
  /-- `clusterCapacity.ScalingDirection` as filled by the evaluation. -/
  scalingDirection : ScalingDirection
  /-- `time.Now()` during this pass. -/
  now : Nat
  /-- `client.ScaleOutCluster` returned a non-nil error. -/
  scaleOutErr : Bool
  /-- `client.GetMostRecentInstance` at a given attempt: `some address`
  on success, `none` on error. -/
  getMostRecentInstance : Nat → Option String
  /-- `nomadClient.VerifyNodeHealth` at a given attempt. -/
  verifyNodeHealth : Nat → String → Bool
  /-- `client.TranslateIptoID` at a given attempt. -/
  translateIptoID : Nat → String → String
  /-- `client.DetachInstance` returned a non-nil error (logged only,
  never read by the control flow). -/
  detachErr : Bool
  /-- `client.TerminateInstance` returned a non-nil error at a given
  attempt (logged only, never read by the control flow). -/
  terminateErr : Nat → Bool
  /-- `nomadClient.LeastAllocatedNode`: the returned node id. -/
  leastAllocatedNodeID : String
  /-- `nomadClient.LeastAllocatedNode`: the returned node address. -/
  leastAllocatedNodeIP : String
  /-- `nomadClient.DrainNode` returned a non-nil error. -/
  drainErr : Bool
  /-- `client.ScaleInCluster` returned a non-nil error. -/
  scaleInErr : Bool

/-- How the scale-out retry loop (runner.go lines 143-212) ended. -/
inductive LoopExit where
  /-- `VerifyNodeHealth` succeeded: reset the failure count, stamp the
  scaling event and return (lines 166-175). -/
  | healthy
  /-- `disableClusterScaling` reported `true`: detach and return
  (lines 190-205). -/
  | disabled
  /-- The loop condition `NodeFailureCount <= RetryThreshold` became
  false and control fell out of the loop. -/
  | exhausted
deriving DecidableEq, Repr

structure LoopResult where
  exit : LoopExit
  state : ScalingState
  config : Config
  calls : List Call
  /-- Emissions of the `cluster.scale_out_failed` counter (line 182). -/
  failedCounter : Nat
deriving Repr

/-- `Runner.disableClusterScaling` (runner.go lines 244-257): if the
failure count equals the retry threshold, flip
`Config.ClusterScaling.Enabled` to false and report `true`. -/
def disableClusterScaling (cfg : Config) (st : ScalingState) : Bool × Config :=
  if st.nodeFailureCount = cfg.clusterScaling.retryThreshold then
    (true, { cfg with clusterScaling := { cfg.clusterScaling with enabled := false } })
  else
    (false, cfg)

/-- One step of the scale-out retry loop
`for scalingState.NodeFailureCount <= RetryThreshold` (runner.go
lines 143-212), with explicit fuel.  Each fuel unit pays for one
evaluation of the loop condition; the wrapper `scaleOutLoop` supplies
`retryThreshold + 2 - nodeFailureCount` fuel, which is exact: every
iteration raises the failure count by one unless it returns, so the
fuel-exhausted branch coincides with the condition-false branch and the
function equals the unbounded Go loop. -/
def scaleOutLoopAux (cfg : Config) (env : Env) :
    Nat → ScalingState → Nat → LoopResult
  | 0, st, _ =>
    { exit := LoopExit.exhausted, state := st, config := cfg, calls := [], failedCounter := 0 }
  | fuel + 1, st, attempt =>
    if st.nodeFailureCount ≤ cfg.clusterScaling.retryThreshold then
      let getCall := Call.getMostRecentInstance cfg.clusterScaling.autoscalingGroup cfg.region
      match env.getMostRecentInstance attempt with
      | none =>
        -- Identification failed (lines 156-161): increment the failure
        -- count and `continue` (the disable check is not reached).
        let st := { st with nodeFailureCount := st.nodeFailureCount + 1 }
        let r := scaleOutLoopAux cfg env fuel st (attempt + 1)
        { r with calls := getCall :: r.calls }
      | some newestNode =>
        if env.verifyNodeHealth attempt newestNode then
          -- Healthy (lines 166-175): reset the count, stamp the event,
          -- return.
          { exit := LoopExit.healthy,
            state := { nodeFailureCount := 0, lastScalingEvent := env.now },
            config := cfg,
            calls := [getCall, Call.verifyNodeHealth newestNode],
            failedCounter := 0 }
        else
          -- Unhealthy (lines 177-211): increment, emit the failure
          -- counter, translate the address, decide disable-vs-terminate.
          let st := { st with nodeFailureCount := st.nodeFailureCount + 1 }
          let instanceID := env.translateIptoID attempt newestNode
          let dc := disableClusterScaling cfg st
          if dc.1 then
            { exit := LoopExit.disabled,
              state := st,
              config := dc.2,
              calls := [getCall, Call.verifyNodeHealth newestNode,
                        Call.translateIptoID newestNode cfg.region,
                        Call.detachInstance cfg.clusterScaling.autoscalingGroup instanceID],
              failedCounter := 1 }
          else
            let r := scaleOutLoopAux dc.2 env fuel st (attempt + 1)
            { r with
              calls := getCall :: Call.verifyNodeHealth newestNode ::
                Call.translateIptoID newestNode cfg.region ::
                Call.terminateInstance instanceID cfg.region :: r.calls,
              failedCounter := r.failedCounter + 1 }
    else
      { exit := LoopExit.exhausted, state := st, config := cfg, calls := [], failedCounter := 0 }

/-- The scale-out retry loop (runner.go lines 143-212), entered with the
current scaling state; `attempt` numbers the iterations for the
environment. -/
def scaleOutLoop (cfg : Config) (env : Env) (st : ScalingState) (attempt : Nat) : LoopResult :=
  scaleOutLoopAux cfg env (cfg.clusterScaling.retryThreshold + 2 - st.nodeFailureCount) st attempt

/-- Result of one `clusterScaling` pass. -/
structure PassResult where
  state : ScalingState
  config : Config
  calls : List Call
  /-- The `cluster.scale_out_success` counter (line 240) was emitted. -/
  successCounter : Bool
  /-- Emissions of the `cluster.scale_out_failed` counter (line 182). -/
  failedCounter : Nat
deriving Repr

/-- Region resolution (runner.go lines 80-84): when no region is
configured, adopt the auto-discovered one on success. -/
def resolveRegion (cfg : Config) (env : Env) : Config :=
  if cfg.region = "" then
    match env.describeAWSRegion with
    | some region => { cfg with region := region }
    | none => cfg
  else cfg

/-- The `DescribeAWSRegion` call is made exactly when no region is
configured (runner.go lines 80-84). -/
def regionCalls (cfg : Config) : List Call :=
  if cfg.region = "" then [Call.describeAWSRegion] else []

/-- `Runner.clusterScaling` (runner.go lines 65-242), one pass.  The
`done <- true` completion signal is the function returning. -/
def clusterScaling (cfg : Config) (env : Env) (st : ScalingState) : PassResult :=
  -- line 67: the enabled flag is read once, before the pass may flip it.
  let scalingEnabled := cfg.clusterScaling.enabled
  if !env.haveLeadership then
    -- lines 71-76: not the leader, halt.
    { state := st, config := cfg, calls := [Call.leaderCheck],
      successCounter := false, failedCounter := 0 }
  else
    let cfg := resolveRegion cfg env
    let pre := Call.leaderCheck :: regionCalls cfg ++ [Call.evaluateClusterCapacity]
    if env.evaluateErr || !env.evaluateScale then
      -- line 89-90: not required or permitted; falls through to line 240.
      { state := st, config := cfg, calls := pre,
        successCounter := true, failedCounter := 0 }
    else
      -- lines 97-115: cooldown gate, only when a scaling event exists.
      if st.lastScalingEvent ≠ 0 ∧ env.now < st.lastScalingEvent + cfg.clusterScaling.coolDown then
        { state := st, config := cfg, calls := pre,
          successCounter := false, failedCounter := 0 }
      else
        if env.scalingDirection = ScalingDirection.dOut then
          if !scalingEnabled then
            -- lines 120-126: administratively disabled, halt.
            { state := st, config := cfg, calls := pre,
              successCounter := false, failedCounter := 0 }
          else if env.scaleOutErr then
            -- lines 130-136: desired-count increment failed, halt.
            { state := st, config := cfg,
              calls := pre ++ [Call.scaleOutCluster cfg.clusterScaling.autoscalingGroup],
              successCounter := false, failedCounter := 0 }
          else
            let r := scaleOutLoop cfg env st 0
            let calls := pre ++ Call.scaleOutCluster cfg.clusterScaling.autoscalingGroup :: r.calls
            match r.exit with
            | LoopExit.healthy =>
              -- lines 166-175: return inside the loop, before line 240.
              { state := r.state, config := r.config, calls := calls,
                successCounter := false, failedCounter := r.failedCounter }
            | LoopExit.disabled =>
              -- lines 190-205: return inside the loop, before line 240.
              { state := r.state, config := r.config, calls := calls,
                successCounter := false, failedCounter := r.failedCounter }
            | LoopExit.exhausted =>
              -- The loop fell through; the direction is Out, so the
              -- scale-in branch is skipped and line 240 is reached.
              { state := r.state, config := r.config, calls := calls,
                successCounter := true, failedCounter := r.failedCounter }
        else if env.scalingDirection = ScalingDirection.dIn then
          -- lines 215-237: scale-in branch.
          let nodeID := env.leastAllocatedNodeID
          let nodeIP := env.leastAllocatedNodeIP
          let calls := pre ++ [Call.leastAllocatedNode]
          if nodeIP ≠ "" ∧ nodeID ≠ "" then
            if !scalingEnabled then
              -- lines 218-223: administratively disabled, halt.
              { state := st, config := cfg, calls := calls,
                successCounter := false, failedCounter := 0 }
            else if env.drainErr then
              -- line 225: drain failed, nothing else happens; falls
              -- through to line 240.
              { state := st, config := cfg,
                calls := calls ++ [Call.drainNode nodeID],
                successCounter := true, failedCounter := 0 }
            else if env.scaleInErr then
              -- lines 227-230: termination failed, event not stamped.
              { state := st, config := cfg,
                calls := calls ++ [Call.drainNode nodeID,
                  Call.scaleInCluster cfg.clusterScaling.autoscalingGroup nodeIP],
                successCounter := true, failedCounter := 0 }
            else
              -- lines 231-234: termination succeeded, stamp the event.
              { state := { st with lastScalingEvent := env.now }, config := cfg,
                calls := calls ++ [Call.drainNode nodeID,
                  Call.scaleInCluster cfg.clusterScaling.autoscalingGroup nodeIP],
                successCounter := true, failedCounter := 0 }
          else
            { state := st, config := cfg, calls := calls,
              successCounter := true, failedCounter := 0 }
        else
          -- Direction None: both branches skipped, line 240 reached.
          { state := st, config := cfg, calls := pre,
            successCounter := true, failedCounter := 0 }

/-- One group-level scaling policy of a workload
(`structs.GroupScalingPolicy` as read by `jobScaling`). -/
structure GroupScalingPolicy where
  groupName : String
  scaleDirection : ScalingDirection
deriving DecidableEq, Repr

/-- One workload's scaling policy record (`structs.JobScalingPolicy` as
read by `jobScaling`), after `EvaluateJobScaling` has annotated the
directions. -/
structure JobScalingPolicy where
  jobName : String
  enabled : Bool
  groupScalingPolicies : List GroupScalingPolicy
deriving DecidableEq, Repr

/-- Environment of one job-scaling pass. -/
structure JobEnv where
  haveLeadership : Bool
  /-- `GetJobScalingPolicies` returned a non-nil error. -/
  getPoliciesErr : Bool
  /-- The policy set, as it stands after `EvaluateJobScaling`. -/
  policies : List JobScalingPolicy

/-- The counter `i` of runner.go lines 291-304: the number of groups of
the workload whose direction is Out or In while both the workload's flag
and the global job-scaling flag are true. -/
def eligibleGroupCount (jobScalingEnabled : Bool) (job : JobScalingPolicy) : Nat :=
  job.groupScalingPolicies.foldl
    (fun i group =>
      if group.scaleDirection = ScalingDirection.dOut ∨
          group.scaleDirection = ScalingDirection.dIn then
        if job.enabled && jobScalingEnabled then i + 1 else i
      else i)
    0

/-- `Runner.jobScaling` (runner.go lines 261-313), one pass, returning
the trace of collaborator calls. -/
def jobScaling (cfg : Config) (env : JobEnv) : List Call :=
  if !env.haveLeadership then
    -- lines 269-272: not the leader, halt.
    [Call.leaderCheck]
  else if env.getPoliciesErr then
    -- lines 276-280: fetch failed, halt.
    [Call.leaderCheck, Call.getJobScalingPolicies]
  else
    [Call.leaderCheck, Call.getJobScalingPolicies, Call.evaluateJobScaling] ++
      env.policies.flatMap fun job =>
        if eligibleGroupCount cfg.jobScaling.enabled job > 0 then
          -- lines 309-311: submit the whole workload, once.
          [Call.jobScale job.jobName]
        else
          []

/-- The configuration after the self-disable safety action. -/
def disabledConfig (cfg : Config) : Config :=
  { cfg with clusterScaling := { cfg.clusterScaling with enabled := false } }

/-- Spec-side eligibility of a workload (§4.3 steps 4-5 of the spec): at
least one group with direction Out or In while both the workload flag and
the global job-scaling flag are true.  Compared against the source-side
`eligibleGroupCount`. -/
def jobEligible (cfg : Config) (job : JobScalingPolicy) : Bool :=
  job.enabled && cfg.jobScaling.enabled &&
    job.groupScalingPolicies.any fun g =>
      g.scaleDirection == ScalingDirection.dOut || g.scaleDirection == ScalingDirection.dIn

/-- A concrete configuration with the given retry threshold. -/
def exCfg (threshold : Nat) : Config :=
  { region := "eu-west-1", scalingInterval := 1,
    clusterScaling :=
      { enabled := true, coolDown := 10, retryThreshold := threshold,
        autoscalingGroup := "asg" },
    jobScaling := { enabled := true } }

/-- A concrete environment: leader, scale-out required, every
identification succeeds and every health verification fails. -/
def exEnvUnhealthy : Env :=
  { haveLeadership := true, describeAWSRegion := none,
    evaluateErr := false, evaluateScale := true,
    scalingDirection := ScalingDirection.dOut, now := 5, scaleOutErr := false,
    getMostRecentInstance := fun _ => some "10.0.0.1",
    verifyNodeHealth := fun _ _ => false,
    translateIptoID := fun _ _ => "i-1",
    detachErr := false, terminateErr := fun _ => false,
    leastAllocatedNodeID := "", leastAllocatedNodeIP := "",
    drainErr := false, scaleInErr := false }

/-- As `exEnvUnhealthy`, but every identification fails. -/
def exEnvIdentFail : Env :=
  { exEnvUnhealthy with getMostRecentInstance := fun _ => none }

/-- As `exEnvUnhealthy`, but the first health verification succeeds. -/
def exEnvHealthy : Env :=
  { exEnvUnhealthy with verifyNodeHealth := fun _ _ => true }

/-- A concrete scale-in environment with an eligible node and a failing
drain. -/
def exEnvIn : Env :=
  { exEnvUnhealthy with
      scalingDirection := ScalingDirection.dIn,
      leastAllocatedNodeID := "node-1", leastAllocatedNodeIP := "10.0.0.2",
      drainErr := true }

/-- As `exCfg 2`, but with no region configured. -/
def exCfgNoRegion : Config := { exCfg 2 with region := "" }

/-- As `exEnvUnhealthy`, but region discovery answers and capacity
evaluation errors out. -/
def exEnvRegion : Env :=
  { exEnvUnhealthy with
      describeAWSRegion := some "us-east-1", evaluateErr := true }

/-- A concrete job-scaling environment: one workload with an eligible
group and a `None` group, one workload whose own flag is off. -/
def exJobEnv : JobEnv :=
  { haveLeadership := true, getPoliciesErr := false,
    policies :=
      [{ jobName := "web", enabled := true,
         groupScalingPolicies :=
           [{ groupName := "g1", scaleDirection := ScalingDirection.dOut },
            { groupName := "g2", scaleDirection := ScalingDirection.dNone }] },
       { jobName := "batch", enabled := false,
         groupScalingPolicies :=
           [{ groupName := "g3", scaleDirection := ScalingDirection.dIn }] }] }

lemma resolveRegion_clusterScaling (cfg : Config) (env : Env) :
    (resolveRegion cfg env).clusterScaling = cfg.clusterScaling := by
  unfold resolveRegion
  split
  · cases env.describeAWSRegion <;> rfl
  · rfl

lemma resolveRegion_jobScaling (cfg : Config) (env : Env) :
    (resolveRegion cfg env).jobScaling = cfg.jobScaling := by
  unfold resolveRegion
  split
  · cases env.describeAWSRegion <;> rfl
  · rfl

lemma resolveRegion_scalingInterval (cfg : Config) (env : Env) :
    (resolveRegion cfg env).scalingInterval = cfg.scalingInterval := by
  unfold resolveRegion
  split
  · cases env.describeAWSRegion <;> rfl
  · rfl

lemma resolveRegion_region (cfg : Config) (env : Env) :
    (resolveRegion cfg env).region = cfg.region ∨
      (cfg.region = "" ∧ env.describeAWSRegion = some (resolveRegion cfg env).region) := by
  unfold resolveRegion
  split
  · rename_i h
    cases hd : env.describeAWSRegion with
    | none => exact Or.inl rfl
    | some r => exact Or.inr ⟨h, rfl⟩
  · exact Or.inl rfl

/-- The loop condition is already false: the body never runs. -/
lemma loop_step_exhausted (cfg : Config) (env : Env) (st : ScalingState) (attempt : Nat)
    (h : ¬ st.nodeFailureCount ≤ cfg.clusterScaling.retryThreshold) :
    scaleOutLoop cfg env st attempt =
      { exit := LoopExit.exhausted, state := st, config := cfg, calls := [],
        failedCounter := 0 } := by
  unfold scaleOutLoop
  rcases hk : cfg.clusterScaling.retryThreshold + 2 - st.nodeFailureCount with _ | k
  · simp [scaleOutLoopAux]
  · simp [scaleOutLoopAux, h]

/-- Identification failure: increment and `continue`. -/
lemma loop_step_identfail (cfg : Config) (env : Env) (st : ScalingState) (attempt : Nat)
    (h : st.nodeFailureCount ≤ cfg.clusterScaling.retryThreshold)
    (hn : env.getMostRecentInstance attempt = none) :
    scaleOutLoop cfg env st attempt =
      { scaleOutLoop cfg env { st with nodeFailureCount := st.nodeFailureCount + 1 }
          (attempt + 1) with
        calls := Call.getMostRecentInstance cfg.clusterScaling.autoscalingGroup cfg.region ::
          (scaleOutLoop cfg env { st with nodeFailureCount := st.nodeFailureCount + 1 }
            (attempt + 1)).calls } := by
  have hfuel : cfg.clusterScaling.retryThreshold + 2 - st.nodeFailureCount =
      (cfg.clusterScaling.retryThreshold + 2 - (st.nodeFailureCount + 1)) + 1 := by omega
  unfold scaleOutLoop
  rw [hfuel]
  simp only [scaleOutLoopAux, if_pos h, hn]

/-- Healthy verification: reset, stamp, return. -/
lemma loop_step_healthy (cfg : Config) (env : Env) (st : ScalingState) (attempt : Nat)
    (n : String)
    (h : st.nodeFailureCount ≤ cfg.clusterScaling.retryThreshold)
    (hn : env.getMostRecentInstance attempt = some n)
    (hv : env.verifyNodeHealth attempt n = true) :
    scaleOutLoop cfg env st attempt =
      { exit := LoopExit.healthy,
        state := { nodeFailureCount := 0, lastScalingEvent := env.now },
        config := cfg,
        calls := [Call.getMostRecentInstance cfg.clusterScaling.autoscalingGroup cfg.region,
          Call.verifyNodeHealth n],
        failedCounter := 0 } := by
  have hfuel : cfg.clusterScaling.retryThreshold + 2 - st.nodeFailureCount =
      (cfg.clusterScaling.retryThreshold + 2 - (st.nodeFailureCount + 1)) + 1 := by omega
  unfold scaleOutLoop
  rw [hfuel]
  simp only [scaleOutLoopAux, if_pos h, hn, hv, if_pos trivial]

/-- Unhealthy verification at the threshold boundary: disable and detach. -/
lemma loop_step_disable (cfg : Config) (env : Env) (st : ScalingState) (attempt : Nat)
    (n : String)
    (h : st.nodeFailureCount ≤ cfg.clusterScaling.retryThreshold)
    (hn : env.getMostRecentInstance attempt = some n)
    (hv : env.verifyNodeHealth attempt n = false)
    (hd : st.nodeFailureCount + 1 = cfg.clusterScaling.retryThreshold) :
    scaleOutLoop cfg env st attempt =
      { exit := LoopExit.disabled,
        state := { st with nodeFailureCount := st.nodeFailureCount + 1 },
        config := disabledConfig cfg,
        calls := [Call.getMostRecentInstance cfg.clusterScaling.autoscalingGroup cfg.region,
          Call.verifyNodeHealth n,
          Call.translateIptoID n cfg.region,
          Call.detachInstance cfg.clusterScaling.autoscalingGroup
            (env.translateIptoID attempt n)],
        failedCounter := 1 } := by
  have hfuel : cfg.clusterScaling.retryThreshold + 2 - st.nodeFailureCount =
      (cfg.clusterScaling.retryThreshold + 2 - (st.nodeFailureCount + 1)) + 1 := by omega
  unfold scaleOutLoop
  rw [hfuel]
  simp only [scaleOutLoopAux, if_pos h, hn, hv, Bool.false_eq_true, if_false,
    disableClusterScaling, hd, disabledConfig]
  simp

/-- Unhealthy verification below the threshold boundary: terminate and
loop again. -/
lemma loop_step_terminate (cfg : Config) (env : Env) (st : ScalingState) (attempt : Nat)
    (n : String)
    (h : st.nodeFailureCount ≤ cfg.clusterScaling.retryThreshold)
    (hn : env.getMostRecentInstance attempt = some n)
    (hv : env.verifyNodeHealth attempt n = false)
    (hd : st.nodeFailureCount + 1 ≠ cfg.clusterScaling.retryThreshold) :
    scaleOutLoop cfg env st attempt =
      { scaleOutLoop cfg env { st with nodeFailureCount := st.nodeFailureCount + 1 }
          (attempt + 1) with
        calls := Call.getMostRecentInstance cfg.clusterScaling.autoscalingGroup cfg.region ::
          Call.verifyNodeHealth n ::
          Call.translateIptoID n cfg.region ::
          Call.terminateInstance (env.translateIptoID attempt n) cfg.region ::
          (scaleOutLoop cfg env { st with nodeFailureCount := st.nodeFailureCount + 1 }
            (attempt + 1)).calls,
        failedCounter :=
          (scaleOutLoop cfg env { st with nodeFailureCount := st.nodeFailureCount + 1 }
            (attempt + 1)).failedCounter + 1 } := by
  have hfuel : cfg.clusterScaling.retryThreshold + 2 - st.nodeFailureCount =
      (cfg.clusterScaling.retryThreshold + 2 - (st.nodeFailureCount + 1)) + 1 := by omega
  unfold scaleOutLoop
  rw [hfuel]
  simp only [scaleOutLoopAux, if_pos h, hn, hv, Bool.false_eq_true, if_false,
    disableClusterScaling, hd]

/-- A healthy exit of the retry loop always carries a zero failure
count. -/
lemma loop_healthy_count (cfg : Config) (env : Env) :
    ∀ (k : Nat) (st : ScalingState) (attempt : Nat),
      cfg.clusterScaling.retryThreshold + 1 - st.nodeFailureCount ≤ k →
      (scaleOutLoop cfg env st attempt).exit = LoopExit.healthy →
      (scaleOutLoop cfg env st attempt).state.nodeFailureCount = 0 := by
  intro k
  induction k with
  | zero =>
    intro st a hk h
    rw [loop_step_exhausted cfg env st a (by omega)] at h
    simp at h
  | succ k ih =>
    intro st a hk h
    by_cases hg : st.nodeFailureCount ≤ cfg.clusterScaling.retryThreshold
    · cases hn : env.getMostRecentInstance a with
      | none =>
        rw [loop_step_identfail cfg env st a hg hn] at h ⊢
        exact ih _ _ (by simp; omega) h
      | some n =>
        by_cases hv : env.verifyNodeHealth a n = true
        · rw [loop_step_healthy cfg env st a n hg hn hv]
        · rw [Bool.not_eq_true] at hv
          by_cases hd : st.nodeFailureCount + 1 = cfg.clusterScaling.retryThreshold
          · rw [loop_step_disable cfg env st a n hg hn hv hd] at h
            simp at h
          · rw [loop_step_terminate cfg env st a n hg hn hv hd] at h ⊢
            exact ih _ _ (by simp; omega) h
    · rw [loop_step_exhausted cfg env st a hg] at h
      simp at h

/-- The retry loop leaves the configuration untouched except, possibly,
for the self-disable of the enabled flag. -/
lemma loop_config_cases (cfg : Config) (env : Env) :
    ∀ (k : Nat) (st : ScalingState) (attempt : Nat),
      cfg.clusterScaling.retryThreshold + 1 - st.nodeFailureCount ≤ k →
      (scaleOutLoop cfg env st attempt).config = cfg ∨
        (scaleOutLoop cfg env st attempt).config = disabledConfig cfg := by
  intro k
  induction k with
  | zero =>
    intro st a hk
    rw [loop_step_exhausted cfg env st a (by omega)]
    exact Or.inl rfl
  | succ k ih =>
    intro st a hk
    by_cases hg : st.nodeFailureCount ≤ cfg.clusterScaling.retryThreshold
    · cases hn : env.getMostRecentInstance a with
      | none =>
        rw [loop_step_identfail cfg env st a hg hn]
        exact ih _ _ (by simp; omega)
      | some n =>
        by_cases hv : env.verifyNodeHealth a n = true
        · rw [loop_step_healthy cfg env st a n hg hn hv]
          exact Or.inl rfl
        · rw [Bool.not_eq_true] at hv
          by_cases hd : st.nodeFailureCount + 1 = cfg.clusterScaling.retryThreshold
          · rw [loop_step_disable cfg env st a n hg hn hv hd]
            exact Or.inr rfl
          · rw [loop_step_terminate cfg env st a n hg hn hv hd]
            exact ih _ _ (by simp; omega)
    · rw [loop_step_exhausted cfg env st a hg]
      exact Or.inl rfl

/-- A retry loop that makes no identification attempt leaves the scaling
state untouched. -/
lemma loop_state_of_no_attempts (cfg : Config) (env : Env) (st : ScalingState) (attempt : Nat) :
    (scaleOutLoop cfg env st attempt).state = st ∨
      0 < attemptCount (scaleOutLoop cfg env st attempt).calls := by
  by_cases hg : st.nodeFailureCount ≤ cfg.clusterScaling.retryThreshold
  · cases hn : env.getMostRecentInstance attempt with
    | none =>
      right
      rw [loop_step_identfail cfg env st attempt hg hn]
      simp [attemptCount, List.countP_cons, Call.isIdentification]
    | some n =>
      by_cases hv : env.verifyNodeHealth attempt n = true
      · right
        rw [loop_step_healthy cfg env st attempt n hg hn hv]
        simp [attemptCount, List.countP_cons, Call.isIdentification]
      · rw [Bool.not_eq_true] at hv
        by_cases hd : st.nodeFailureCount + 1 = cfg.clusterScaling.retryThreshold
        · right
          rw [loop_step_disable cfg env st attempt n hg hn hv hd]
          simp [attemptCount, List.countP_cons, Call.isIdentification]
        · right
          rw [loop_step_terminate cfg env st attempt n hg hn hv hd]
          simp [attemptCount, List.countP_cons, Call.isIdentification]
  · left
    rw [loop_step_exhausted cfg env st attempt hg]

lemma attemptCount_cons_get (asg region : String) (l : List Call) :
    attemptCount (Call.getMostRecentInstance asg region :: l) = attemptCount l + 1 := by
  simp [attemptCount, List.countP_cons, Call.isIdentification]

lemma attemptCount_cons_of_not (c : Call) (l : List Call) (h : c.isIdentification = false) :
    attemptCount (c :: l) = attemptCount l := by
  simp [attemptCount, List.countP_cons, h]

/-- All identifications succeed and all health verifications fail: the
loop started `k` steps under the threshold (`k ≥ 1`) performs exactly
`k` attempts and ends in the self-disable exit. -/
lemma loop_all_unhealthy (cfg : Config) (env : Env)
    (hid : ∀ a, (env.getMostRecentInstance a).isSome = true)
    (hh : ∀ a n, env.verifyNodeHealth a n = false) :
    ∀ (k : Nat) (st : ScalingState) (attempt : Nat), 0 < k →
      st.nodeFailureCount + k = cfg.clusterScaling.retryThreshold →
      (scaleOutLoop cfg env st attempt).exit = LoopExit.disabled ∧
        (scaleOutLoop cfg env st attempt).state.nodeFailureCount =
          cfg.clusterScaling.retryThreshold ∧
        (scaleOutLoop cfg env st attempt).config = disabledConfig cfg ∧
        attemptCount (scaleOutLoop cfg env st attempt).calls = k := by
  intro k
  induction k with
  | zero => intro st a h0; omega
  | succ k ih =>
    intro st a h0 hk
    have hg : st.nodeFailureCount ≤ cfg.clusterScaling.retryThreshold := by omega
    obtain ⟨n, hn⟩ := Option.isSome_iff_exists.mp (hid a)
    rcases Nat.eq_zero_or_pos k with hk0 | hkpos
    · subst hk0
      have hd : st.nodeFailureCount + 1 = cfg.clusterScaling.retryThreshold := by omega
      rw [loop_step_disable cfg env st a n hg hn (hh a n) hd]
      refine ⟨rfl, by simp [hd], rfl, ?_⟩
      simp [attemptCount, List.countP_cons, Call.isIdentification]
    · have hd : st.nodeFailureCount + 1 ≠ cfg.clusterScaling.retryThreshold := by omega
      rw [loop_step_terminate cfg env st a n hg hn (hh a n) hd]
      have := ih { st with nodeFailureCount := st.nodeFailureCount + 1 } (a + 1)
        hkpos (by simp; omega)
      refine ⟨this.1, this.2.1, this.2.2.1, ?_⟩
      have hcount := this.2.2.2
      show attemptCount (_ :: _ :: _ :: _ :: _) = k + 1
      simp [attemptCount, List.countP_cons, Call.isIdentification] at hcount ⊢
      omega

/-- All identifications succeed: a loop started `k` steps under the
threshold (`k ≥ 1`) either returns healthy with a zero count, or disables
scaling with the count exactly at the threshold. -/
lemma loop_ident_ok (cfg : Config) (env : Env)
    (hid : ∀ a, (env.getMostRecentInstance a).isSome = true) :
    ∀ (k : Nat) (st : ScalingState) (attempt : Nat), 0 < k →
      st.nodeFailureCount + k = cfg.clusterScaling.retryThreshold →
      ((scaleOutLoop cfg env st attempt).exit = LoopExit.healthy ∧
          (scaleOutLoop cfg env st attempt).state.nodeFailureCount = 0 ∧
          (scaleOutLoop cfg env st attempt).config = cfg) ∨
        ((scaleOutLoop cfg env st attempt).exit = LoopExit.disabled ∧
          (scaleOutLoop cfg env st attempt).state.nodeFailureCount =
            cfg.clusterScaling.retryThreshold ∧
          (scaleOutLoop cfg env st attempt).config = disabledConfig cfg) := by
  intro k
  induction k with
  | zero => intro st a h0; omega
  | succ k ih =>
    intro st a h0 hk
    have hg : st.nodeFailureCount ≤ cfg.clusterScaling.retryThreshold := by omega
    obtain ⟨n, hn⟩ := Option.isSome_iff_exists.mp (hid a)
    by_cases hv : env.verifyNodeHealth a n = true
    · left
      rw [loop_step_healthy cfg env st a n hg hn hv]
      exact ⟨rfl, rfl, rfl⟩
    · rw [Bool.not_eq_true] at hv
      rcases Nat.eq_zero_or_pos k with hk0 | hkpos
      · subst hk0
        have hd : st.nodeFailureCount + 1 = cfg.clusterScaling.retryThreshold := by omega
        right
        rw [loop_step_disable cfg env st a n hg hn hv hd]
        exact ⟨rfl, by simp [hd], rfl⟩
      · have hd : st.nodeFailureCount + 1 ≠ cfg.clusterScaling.retryThreshold := by omega
        rw [loop_step_terminate cfg env st a n hg hn hv hd]
        have := ih { st with nodeFailureCount := st.nodeFailureCount + 1 } (a + 1)
          hkpos (by simp; omega)
        rcases this with ⟨h1, h2, h3⟩ | ⟨h1, h2, h3⟩
        · exact Or.inl ⟨h1, h2, h3⟩
        · exact Or.inr ⟨h1, h2, h3⟩

lemma attemptCount_append (l1 l2 : List Call) :
    attemptCount (l1 ++ l2) = attemptCount l1 + attemptCount l2 := by
  simp [attemptCount, List.countP_append]

lemma attemptCount_regionCalls (cfg : Config) : attemptCount (regionCalls cfg) = 0 := by
  unfold regionCalls
  split <;> simp [attemptCount, Call.isIdentification]

lemma attemptCount_pre (cfg : Config) :
    attemptCount (Call.leaderCheck :: regionCalls cfg ++ [Call.evaluateClusterCapacity])
      = 0 := by
  unfold regionCalls
  split <;> rfl

/-- C1 as written is false on the code: with `RetryThreshold = 2` and
every health verification failing, the pass self-disables after exactly
2 instance attempts, not `2 + 1 = 3`. -/
theorem claim1_counterexample :
    (clusterScaling (exCfg 2) exEnvUnhealthy initialScalingState).config.clusterScaling.enabled
        = false ∧
      attemptCount (clusterScaling (exCfg 2) exEnvUnhealthy initialScalingState).calls = 2 ∧
      ¬ attemptCount (clusterScaling (exCfg 2) exEnvUnhealthy initialScalingState).calls =
          (exCfg 2).clusterScaling.retryThreshold + 1 := by
  decide

/-- C1 amended: in a scale-out pass whose retry loop starts with
`NodeFailureCount = 0` and in which every attempt fails health
verification (identification succeeding), exactly `RetryThreshold`
instance attempts are made before the self-disable action triggers,
provided `RetryThreshold ≥ 1`; the inclusive loop bound does not add an
extra attempt because the disable check fires as soon as the count
reaches the threshold, before the loop condition is re-evaluated. -/
theorem claim1_theorem (cfg : Config) (env : Env) (st : ScalingState)
    (hT : 1 ≤ cfg.clusterScaling.retryThreshold)
    (hcount : st.nodeFailureCount = 0) (hcool : st.lastScalingEvent = 0)
    (hl : env.haveLeadership = true) (he : env.evaluateErr = false)
    (hs : env.evaluateScale = true) (hdir : env.scalingDirection = ScalingDirection.dOut)
    (hen : cfg.clusterScaling.enabled = true) (hso : env.scaleOutErr = false)
    (hid : ∀ a, (env.getMostRecentInstance a).isSome = true)
    (hh : ∀ a n, env.verifyNodeHealth a n = false) :
    (clusterScaling cfg env st).config.clusterScaling.enabled = false ∧
      attemptCount (clusterScaling cfg env st).calls =
        cfg.clusterScaling.retryThreshold := by
  have hcs : (resolveRegion cfg env).clusterScaling = cfg.clusterScaling :=
    resolveRegion_clusterScaling cfg env
  have hloop := loop_all_unhealthy (resolveRegion cfg env) env hid hh
    ((resolveRegion cfg env).clusterScaling.retryThreshold) st 0
    (by rw [hcs]; omega) (by omega)
  unfold clusterScaling
  simp only [hl, he, hs, hdir, hen, hso, hcool, Bool.not_true, Bool.false_eq_true,
    if_false, Bool.or_self, ne_eq, not_true_eq_false, false_and, if_true,
    reduceIte, hloop.1]
  constructor
  · rw [hloop.2.2.1]
    rfl
  · rw [attemptCount_append, attemptCount_pre,
      attemptCount_cons_of_not (Call.scaleOutCluster _) _ rfl, hloop.2.2.2, hcs]
    omega

/-- C1 witness: the amended statement at `RetryThreshold = 3`. -/
theorem claim1_witness :
    (clusterScaling (exCfg 3) exEnvUnhealthy initialScalingState).config.clusterScaling.enabled
        = false ∧
      attemptCount (clusterScaling (exCfg 3) exEnvUnhealthy initialScalingState).calls = 3 :=
  claim1_theorem (exCfg 3) exEnvUnhealthy initialScalingState (by decide) rfl rfl rfl rfl
    rfl rfl rfl rfl (fun _ => rfl) (fun _ _ => rfl)

/-- C2 as written is false on the code: with `RetryThreshold = 1` and
both identification attempts failing, the retry loop ends with
`NodeFailureCount = 2`, which reaches (indeed exceeds) the threshold,
yet cluster scaling is still enabled — the disable check is skipped on
the identification-failure path (`continue` at runner.go line 160). -/
theorem claim2_counterexample :
    (exCfg 1).clusterScaling.retryThreshold ≤
        (clusterScaling (exCfg 1) exEnvIdentFail initialScalingState).state.nodeFailureCount ∧
      (clusterScaling (exCfg 1) exEnvIdentFail
          initialScalingState).config.clusterScaling.enabled = true := by
  decide

/-- C2 amended: the self-disable action fires exactly when a
health-verification failure raises `NodeFailureCount` to equal
`RetryThreshold`; identification failures bypass the check.  When every
identification succeeds, the retry loop starts at zero and
`RetryThreshold ≥ 1`, disabling is equivalent to the `disabled` exit, a
disabled exit carries `NodeFailureCount = RetryThreshold`, a healthy
exit carries `NodeFailureCount = 0`, and — the dichotomy — the loop ends
in exactly one of these two ways: verified healthy with count 0 and the
configuration untouched (scaling still enabled), or self-disabled with
count exactly `RetryThreshold`; no third outcome exists on such a
run. -/
theorem claim2_theorem (cfg : Config) (env : Env) (st : ScalingState) (attempt : Nat)
    (hT : 1 ≤ cfg.clusterScaling.retryThreshold)
    (hcount : st.nodeFailureCount = 0)
    (hen : cfg.clusterScaling.enabled = true)
    (hid : ∀ a, (env.getMostRecentInstance a).isSome = true) :
    ((scaleOutLoop cfg env st attempt).config.clusterScaling.enabled = false ↔
        (scaleOutLoop cfg env st attempt).exit = LoopExit.disabled) ∧
      ((scaleOutLoop cfg env st attempt).exit = LoopExit.disabled →
        (scaleOutLoop cfg env st attempt).state.nodeFailureCount =
          cfg.clusterScaling.retryThreshold) ∧
      ((scaleOutLoop cfg env st attempt).exit = LoopExit.healthy →
        (scaleOutLoop cfg env st attempt).state.nodeFailureCount = 0) ∧
      (((scaleOutLoop cfg env st attempt).exit = LoopExit.healthy ∧
          (scaleOutLoop cfg env st attempt).state.nodeFailureCount = 0 ∧
          (scaleOutLoop cfg env st attempt).config = cfg) ∨
        ((scaleOutLoop cfg env st attempt).exit = LoopExit.disabled ∧
          (scaleOutLoop cfg env st attempt).state.nodeFailureCount =
            cfg.clusterScaling.retryThreshold ∧
          (scaleOutLoop cfg env st attempt).config = disabledConfig cfg)) := by
  have hcases := loop_ident_ok cfg env hid cfg.clusterScaling.retryThreshold st attempt
    (by omega) (by omega)
  rcases hcases with ⟨h1, h2, h3⟩ | ⟨h1, h2, h3⟩
  · refine ⟨?_, ?_, fun _ => h2, Or.inl ⟨h1, h2, h3⟩⟩
    · rw [h1, h3, hen]
      simp
    · intro hd
      rw [h1] at hd
      simp at hd
  · refine ⟨?_, fun _ => h2, ?_, Or.inr ⟨h1, h2, h3⟩⟩
    · rw [h1, h3]
      simp [disabledConfig]
    · intro hhy
      rw [h1] at hhy
      simp at hhy

/-- C2 witness: the amended statement at `RetryThreshold = 2` with every
verification failing. -/
theorem claim2_witness :
    ((scaleOutLoop (exCfg 2) exEnvUnhealthy initialScalingState
          0).config.clusterScaling.enabled = false ↔
        (scaleOutLoop (exCfg 2) exEnvUnhealthy initialScalingState 0).exit
          = LoopExit.disabled) ∧
      ((scaleOutLoop (exCfg 2) exEnvUnhealthy initialScalingState 0).exit
          = LoopExit.disabled →
        (scaleOutLoop (exCfg 2) exEnvUnhealthy initialScalingState
            0).state.nodeFailureCount = 2) ∧
      ((scaleOutLoop (exCfg 2) exEnvUnhealthy initialScalingState 0).exit
          = LoopExit.healthy →
        (scaleOutLoop (exCfg 2) exEnvUnhealthy initialScalingState
            0).state.nodeFailureCount = 0) ∧
      (((scaleOutLoop (exCfg 2) exEnvUnhealthy initialScalingState 0).exit
            = LoopExit.healthy ∧
          (scaleOutLoop (exCfg 2) exEnvUnhealthy initialScalingState
            0).state.nodeFailureCount = 0 ∧
          (scaleOutLoop (exCfg 2) exEnvUnhealthy initialScalingState 0).config
            = exCfg 2) ∨
        ((scaleOutLoop (exCfg 2) exEnvUnhealthy initialScalingState 0).exit
            = LoopExit.disabled ∧
          (scaleOutLoop (exCfg 2) exEnvUnhealthy initialScalingState
            0).state.nodeFailureCount = 2 ∧
          (scaleOutLoop (exCfg 2) exEnvUnhealthy initialScalingState 0).config
            = disabledConfig (exCfg 2))) :=
  claim2_theorem (exCfg 2) exEnvUnhealthy initialScalingState 0 (by decide) rfl rfl
    (fun _ => rfl)

/-- C3 as written is false on the code: after a pass whose retry loop
exhausts on identification failures (`RetryThreshold = 1`), the state
carries `NodeFailureCount = 2` with scaling still enabled, and the next
scale-out pass begins its retry loop with that stale count — it is not
reset when a fresh scaling cycle starts, and the loop therefore makes
zero attempts. -/
theorem claim3_counterexample :
    (clusterScaling (exCfg 1) exEnvIdentFail initialScalingState).state.nodeFailureCount = 2 ∧
      (clusterScaling (exCfg 1) exEnvIdentFail
          initialScalingState).config.clusterScaling.enabled = true ∧
      (clusterScaling (clusterScaling (exCfg 1) exEnvIdentFail initialScalingState).config
          exEnvUnhealthy
          (clusterScaling (exCfg 1) exEnvIdentFail
            initialScalingState).state).state.nodeFailureCount = 2 ∧
      attemptCount (clusterScaling
          (clusterScaling (exCfg 1) exEnvIdentFail initialScalingState).config
          exEnvUnhealthy
          (clusterScaling (exCfg 1) exEnvIdentFail initialScalingState).state).calls = 0 := by
  decide

/-- C3 amended: `NodeFailureCount` starts at 0 when the process starts,
is reset to 0 on any verified-healthy scale-out, and changes only inside
the scale-out retry loop (a pass that makes no identification attempt
leaves it unchanged); it is not reset when a fresh cluster-scaling pass
starts, so a pass may begin its retry loop with a stale nonzero
count. -/
theorem claim3_theorem :
    initialScalingState.nodeFailureCount = 0 ∧
      (∀ (cfg : Config) (env : Env) (st : ScalingState) (attempt : Nat),
        (scaleOutLoop cfg env st attempt).exit = LoopExit.healthy →
        (scaleOutLoop cfg env st attempt).state.nodeFailureCount = 0) ∧
      (∀ (cfg : Config) (env : Env) (st : ScalingState),
        (clusterScaling cfg env st).state.nodeFailureCount = st.nodeFailureCount ∨
          0 < attemptCount (clusterScaling cfg env st).calls) := by
  refine ⟨rfl, ?_, ?_⟩
  · intro cfg env st attempt h
    exact loop_healthy_count cfg env _ st attempt le_rfl h
  · intro cfg env st
    simp only [clusterScaling]
    split
    · left; rfl
    · split
      · left; rfl
      · split
        · left; rfl
        · split
          · split
            · left; rfl
            · split
              · left; rfl
              · rcases loop_state_of_no_attempts (resolveRegion cfg env) env st 0 with
                  hst | hat
                · split <;> (left; rw [hst])
                · have : 0 < attemptCount ((Call.leaderCheck ::
                      regionCalls (resolveRegion cfg env) ++ [Call.evaluateClusterCapacity]) ++
                      Call.scaleOutCluster
                        (resolveRegion cfg env).clusterScaling.autoscalingGroup ::
                      (scaleOutLoop (resolveRegion cfg env) env st 0).calls) := by
                    rw [attemptCount_append, attemptCount_pre,
                      attemptCount_cons_of_not (Call.scaleOutCluster _) _ rfl]
                    omega
                  split <;> (right; exact this)
          · split
            · split
              · split
                · left; rfl
                · split
                  · left; rfl
                  · split
                    · left; rfl
                    · left; rfl
              · left; rfl
            · left; rfl

lemma mutationCalls_pre (cfg : Config) :
    mutationCalls (Call.leaderCheck :: regionCalls cfg ++ [Call.evaluateClusterCapacity])
      = [] := by
  unfold regionCalls mutationCalls
  split <;> rfl

lemma resolveRegion_of_ne (cfg : Config) (env : Env) (h : cfg.region ≠ "") :
    resolveRegion cfg env = cfg := by
  unfold resolveRegion
  simp [h]

/-- The configuration a pass returns: the input (non-leader halt), the
region-resolved input, or the region-resolved input with scaling
self-disabled. -/
lemma pass_config_cases (cfg : Config) (env : Env) (st : ScalingState) :
    (clusterScaling cfg env st).config = cfg ∨
      (clusterScaling cfg env st).config = resolveRegion cfg env ∨
      (clusterScaling cfg env st).config = disabledConfig (resolveRegion cfg env) := by
  simp only [clusterScaling]
  split
  · left; rfl
  · split
    · right; left; rfl
    · split
      · right; left; rfl
      · split
        · split
          · right; left; rfl
          · split
            · right; left; rfl
            · rcases loop_config_cases (resolveRegion cfg env) env
                ((resolveRegion cfg env).clusterScaling.retryThreshold + 1 -
                  st.nodeFailureCount) st 0 le_rfl with hc | hc
              · split <;> (right; left; exact hc)
              · split <;> (right; right; exact hc)
        · split
          · split
            · split
              · right; left; rfl
              · split
                · right; left; rfl
                · split
                  · right; left; rfl
                  · right; left; rfl
            · right; left; rfl
          · right; left; rfl

/-- C3 witness: a concrete healthy loop ends with a zero count, and a
concrete pass follows the unchanged-or-attempted alternative. -/
theorem claim3_witness :
    (scaleOutLoop (exCfg 2) exEnvHealthy initialScalingState 0).state.nodeFailureCount
        = 0 ∧
      ((clusterScaling (exCfg 2) exEnvIn initialScalingState).state.nodeFailureCount =
          initialScalingState.nodeFailureCount ∨
        0 < attemptCount (clusterScaling (exCfg 2) exEnvIn initialScalingState).calls) :=
  ⟨claim3_theorem.2.1 (exCfg 2) exEnvHealthy initialScalingState 0 (by decide),
    claim3_theorem.2.2 (exCfg 2) exEnvIn initialScalingState⟩

/-- C4: a pass in cooldown (non-zero `LastScalingEvent`, now before the
deadline) issues no collaborator mutation call and leaves `ScalingState`
untouched, whatever the direction; and a zero `LastScalingEvent` always
passes the gate (a scale-out directive goes on to call
`ScaleOutCluster`). -/
theorem claim4_theorem :
    (∀ (cfg : Config) (env : Env) (st : ScalingState),
        st.lastScalingEvent ≠ 0 →
        env.now < st.lastScalingEvent + cfg.clusterScaling.coolDown →
        mutationCalls (clusterScaling cfg env st).calls = [] ∧
          (clusterScaling cfg env st).state = st) ∧
      (∀ (cfg : Config) (env : Env) (st : ScalingState),
        st.lastScalingEvent = 0 → env.haveLeadership = true →
        env.evaluateErr = false → env.evaluateScale = true →
        env.scalingDirection = ScalingDirection.dOut →
        cfg.clusterScaling.enabled = true →
        Call.scaleOutCluster cfg.clusterScaling.autoscalingGroup ∈
          (clusterScaling cfg env st).calls) := by
  constructor
  · intro cfg env st h0 hlt
    simp only [clusterScaling]
    split
    · exact ⟨rfl, rfl⟩
    · split
      · exact ⟨mutationCalls_pre _, rfl⟩
      · split
        · exact ⟨mutationCalls_pre _, rfl⟩
        · rename_i hcond
          exact absurd ⟨h0, by rw [resolveRegion_clusterScaling]; exact hlt⟩ hcond
  · intro cfg env st h0 hl he hs hdir hen
    have hcs := resolveRegion_clusterScaling cfg env
    simp only [clusterScaling, hl, he, hs, hdir, hen, h0, Bool.not_true,
      Bool.false_eq_true, if_false, Bool.or_false, ne_eq, not_true_eq_false,
      false_and, if_true, reduceIte, hcs]
    split
    · simp
    · split <;> simp

/-- C4 witness: cooldown suppression at `LastScalingEvent = 3`,
`now = 5`, `CoolDown = 10`, and gate passage at `LastScalingEvent = 0`. -/
theorem claim4_witness :
    (mutationCalls (clusterScaling (exCfg 2) exEnvUnhealthy
          { nodeFailureCount := 0, lastScalingEvent := 3 }).calls = [] ∧
        (clusterScaling (exCfg 2) exEnvUnhealthy
          { nodeFailureCount := 0, lastScalingEvent := 3 }).state =
          { nodeFailureCount := 0, lastScalingEvent := 3 }) ∧
      Call.scaleOutCluster "asg" ∈
        (clusterScaling (exCfg 2) exEnvUnhealthy initialScalingState).calls :=
  ⟨claim4_theorem.1 (exCfg 2) exEnvUnhealthy
      { nodeFailureCount := 0, lastScalingEvent := 3 } (by decide) (by decide),
    claim4_theorem.2 (exCfg 2) exEnvUnhealthy initialScalingState rfl rfl rfl rfl rfl rfl⟩

/-- C5 as written is false on the code: when no region is configured,
the pass writes the auto-discovered region into `Config.Region`
(runner.go lines 80-84), so `Region` is not unchanged. -/
theorem claim5_counterexample :
    exCfgNoRegion.region = "" ∧
      (clusterScaling exCfgNoRegion exEnvRegion initialScalingState).config.region
        = "us-east-1" := by
  decide

/-- C5 amended: the core mutates no `Config` field except
`ClusterScaling.Enabled` (the self-disable safety action, only ever to
`false`) and `Region`, which is written exactly when it starts empty and
region auto-discovery succeeds; every other field (interval, cooldown,
retry threshold, autoscaling group, job-scaling flags) is unchanged by
every cluster-scaling pass. -/
theorem claim5_theorem (cfg : Config) (env : Env) (st : ScalingState) :
    (clusterScaling cfg env st).config.scalingInterval = cfg.scalingInterval ∧
      (clusterScaling cfg env st).config.jobScaling = cfg.jobScaling ∧
      (clusterScaling cfg env st).config.clusterScaling.coolDown =
        cfg.clusterScaling.coolDown ∧
      (clusterScaling cfg env st).config.clusterScaling.retryThreshold =
        cfg.clusterScaling.retryThreshold ∧
      (clusterScaling cfg env st).config.clusterScaling.autoscalingGroup =
        cfg.clusterScaling.autoscalingGroup ∧
      (cfg.region ≠ "" → (clusterScaling cfg env st).config.region = cfg.region) ∧
      ((clusterScaling cfg env st).config.region = cfg.region ∨
        (cfg.region = "" ∧
          env.describeAWSRegion = some (clusterScaling cfg env st).config.region)) ∧
      ((clusterScaling cfg env st).config.clusterScaling.enabled = true →
        cfg.clusterScaling.enabled = true) := by
  have hcs := resolveRegion_clusterScaling cfg env
  rcases pass_config_cases cfg env st with hc | hc | hc <;> rw [hc]
  · exact ⟨rfl, rfl, rfl, rfl, rfl, fun _ => rfl, Or.inl rfl, fun h => h⟩
  · refine ⟨resolveRegion_scalingInterval cfg env, resolveRegion_jobScaling cfg env,
      by rw [hcs], by rw [hcs], by rw [hcs],
      fun h => by rw [resolveRegion_of_ne cfg env h],
      resolveRegion_region cfg env,
      fun h => by rw [← hcs]; exact h⟩
  · refine ⟨resolveRegion_scalingInterval cfg env, resolveRegion_jobScaling cfg env,
      ?_, ?_, ?_, ?_, ?_, ?_⟩
    · show (resolveRegion cfg env).clusterScaling.coolDown = _
      rw [hcs]
    · show (resolveRegion cfg env).clusterScaling.retryThreshold = _
      rw [hcs]
    · show (resolveRegion cfg env).clusterScaling.autoscalingGroup = _
      rw [hcs]
    · intro h
      show (resolveRegion cfg env).region = _
      rw [resolveRegion_of_ne cfg env h]
    · exact resolveRegion_region cfg env
    · intro h
      simp [disabledConfig] at h

/-- C5 witness: the amended statement at a concrete pass. -/
theorem claim5_witness :
    (clusterScaling exCfgNoRegion exEnvRegion initialScalingState).config.scalingInterval
        = exCfgNoRegion.scalingInterval ∧
      (clusterScaling exCfgNoRegion exEnvRegion initialScalingState).config.jobScaling
        = exCfgNoRegion.jobScaling ∧
      (clusterScaling exCfgNoRegion exEnvRegion
          initialScalingState).config.clusterScaling.coolDown
        = exCfgNoRegion.clusterScaling.coolDown ∧
      (clusterScaling exCfgNoRegion exEnvRegion
          initialScalingState).config.clusterScaling.retryThreshold
        = exCfgNoRegion.clusterScaling.retryThreshold ∧
      (clusterScaling exCfgNoRegion exEnvRegion
          initialScalingState).config.clusterScaling.autoscalingGroup
        = exCfgNoRegion.clusterScaling.autoscalingGroup ∧
      (exCfgNoRegion.region ≠ "" →
        (clusterScaling exCfgNoRegion exEnvRegion initialScalingState).config.region
          = exCfgNoRegion.region) ∧
      ((clusterScaling exCfgNoRegion exEnvRegion initialScalingState).config.region
          = exCfgNoRegion.region ∨
        (exCfgNoRegion.region = "" ∧
          exEnvRegion.describeAWSRegion = some (clusterScaling exCfgNoRegion exEnvRegion
            initialScalingState).config.region)) ∧
      ((clusterScaling exCfgNoRegion exEnvRegion
          initialScalingState).config.clusterScaling.enabled = true →
        exCfgNoRegion.clusterScaling.enabled = true) :=
  claim5_theorem exCfgNoRegion exEnvRegion initialScalingState

/-- C6: in a scale-in pass with an eligible node, the instance is
terminated (`ScaleInCluster`) only after the drain succeeds, and
`LastScalingEvent` is stamped only after the termination succeeds; a
drain failure leaves the instance alive and the state untouched. -/
theorem claim6_theorem (cfg : Config) (env : Env) (st : ScalingState)
    (hl : env.haveLeadership = true) (he : env.evaluateErr = false)
    (hs : env.evaluateScale = true)
    (hcool : st.lastScalingEvent = 0 ∨
      ¬ env.now < st.lastScalingEvent + cfg.clusterScaling.coolDown)
    (hdir : env.scalingDirection = ScalingDirection.dIn)
    (hip : env.leastAllocatedNodeIP ≠ "") (hnid : env.leastAllocatedNodeID ≠ "")
    (hen : cfg.clusterScaling.enabled = true) :
    (env.drainErr = true →
        (∀ asg ip, Call.scaleInCluster asg ip ∉ (clusterScaling cfg env st).calls) ∧
          (∀ i r, Call.terminateInstance i r ∉ (clusterScaling cfg env st).calls) ∧
          (clusterScaling cfg env st).state = st) ∧
      (env.drainErr = false → env.scaleInErr = true →
        (clusterScaling cfg env st).state = st) ∧
      (env.drainErr = false → env.scaleInErr = false →
        (clusterScaling cfg env st).state.lastScalingEvent = env.now ∧
          (clusterScaling cfg env st).state.nodeFailureCount = st.nodeFailureCount) := by
  have hnc : ¬(st.lastScalingEvent ≠ 0 ∧
      env.now < st.lastScalingEvent + (resolveRegion cfg env).clusterScaling.coolDown) := by
    rw [resolveRegion_clusterScaling]
    rcases hcool with h | h
    · exact fun hc => hc.1 h
    · exact fun hc => h hc.2
  refine ⟨?_, ?_, ?_⟩
  · intro hde
    simp only [clusterScaling, hl, he, hs, hdir, hen, hnc, hip, hnid, hde,
      Bool.not_true, Bool.false_eq_true, if_false, Bool.or_false, ne_eq,
      not_false_eq_true, and_self, if_true, reduceIte, reduceCtorEq, ite_false]
    refine ⟨fun a b => ?_, fun a b => ?_, trivial⟩ <;>
      (by_cases hreg : (resolveRegion cfg env).region = "" <;> simp [regionCalls, hreg])
  · intro hde hsi
    simp only [clusterScaling, hl, he, hs, hdir, hen, hnc, hip, hnid, hde, hsi,
      Bool.not_true, Bool.false_eq_true, if_false, Bool.or_false, ne_eq,
      not_false_eq_true, and_self, if_true, reduceIte, reduceCtorEq, ite_false]
  · intro hde hsi
    simp only [clusterScaling, hl, he, hs, hdir, hen, hnc, hip, hnid, hde, hsi,
      Bool.not_true, Bool.false_eq_true, if_false, Bool.or_false, ne_eq,
      not_false_eq_true, and_self, if_true, reduceIte, reduceCtorEq, ite_false]

/-- C6 witness: a concrete drain failure terminates nothing and leaves
the state unchanged. -/
theorem claim6_witness :
    Call.scaleInCluster "asg" "10.0.0.2" ∉
        (clusterScaling (exCfg 2) exEnvIn initialScalingState).calls ∧
      (clusterScaling (exCfg 2) exEnvIn initialScalingState).state
        = initialScalingState :=
  ⟨((claim6_theorem (exCfg 2) exEnvIn initialScalingState rfl rfl rfl (Or.inl rfl) rfl
        (by decide) (by decide) rfl).1 rfl).1 "asg" "10.0.0.2",
    ((claim6_theorem (exCfg 2) exEnvIn initialScalingState rfl rfl rfl (Or.inl rfl) rfl
        (by decide) (by decide) rfl).1 rfl).2.2⟩

/-- C7: a pass that fails the leadership check ends at once: its trace
is the single leadership read, it issues no mutation call, and it leaves
both `ScalingState` and `Config` untouched — for the cluster pass and
the job pass alike. -/
theorem claim7_theorem :
    (∀ (cfg : Config) (env : Env) (st : ScalingState), env.haveLeadership = false →
        (clusterScaling cfg env st).calls = [Call.leaderCheck] ∧
          mutationCalls (clusterScaling cfg env st).calls = [] ∧
          (clusterScaling cfg env st).state = st ∧
          (clusterScaling cfg env st).config = cfg) ∧
      (∀ (cfg : Config) (env : JobEnv), env.haveLeadership = false →
        jobScaling cfg env = [Call.leaderCheck] ∧
          mutationCalls (jobScaling cfg env) = []) := by
  constructor
  · intro cfg env st hl
    simp [clusterScaling, hl, mutationCalls, Call.isMutation]
  · intro cfg env hl
    simp [jobScaling, hl, mutationCalls, Call.isMutation]

/-- C7 witness: concrete non-leader cluster and job passes. -/
theorem claim7_witness :
    (clusterScaling (exCfg 2) { exEnvUnhealthy with haveLeadership := false }
        initialScalingState).calls = [Call.leaderCheck] ∧
      jobScaling (exCfg 2) { exJobEnv with haveLeadership := false }
        = [Call.leaderCheck] :=
  ⟨(claim7_theorem.1 (exCfg 2) { exEnvUnhealthy with haveLeadership := false }
      initialScalingState rfl).1,
    (claim7_theorem.2 (exCfg 2) { exJobEnv with haveLeadership := false } rfl).1⟩

/-- The retry loop depends on the environment only through the
identification, health-verification and translation answers and the
clock: in particular detach and terminate errors never alter the
result (the Go code only logs them). -/
lemma scaleOutLoopAux_env_congr (env1 env2 : Env)
    (hg : env1.getMostRecentInstance = env2.getMostRecentInstance)
    (hv : env1.verifyNodeHealth = env2.verifyNodeHealth)
    (ht : env1.translateIptoID = env2.translateIptoID)
    (hn : env1.now = env2.now) :
    ∀ (fuel : Nat) (cfg : Config) (st : ScalingState) (attempt : Nat),
      scaleOutLoopAux cfg env1 fuel st attempt = scaleOutLoopAux cfg env2 fuel st attempt := by
  intro fuel
  induction fuel with
  | zero => intro cfg st a; rfl
  | succ fuel ih =>
    intro cfg st a
    simp only [scaleOutLoopAux, hg, hv, ht, hn, ih]

/-- C8: in an unhealthy retry-loop iteration (identification succeeded,
health verification failed), if the incremented count has just reached
the threshold the loop disables scaling, detaches the failed instance
(no `TerminateInstance` call) and returns; otherwise it terminates the
failed instance and continues looping; and detach/terminate errors never
change the outcome (they are logged, not escalated). -/
theorem claim8_theorem (cfg : Config) (env : Env) (st : ScalingState) (attempt : Nat)
    (n : String)
    (hg : st.nodeFailureCount ≤ cfg.clusterScaling.retryThreshold)
    (hn : env.getMostRecentInstance attempt = some n)
    (hh : env.verifyNodeHealth attempt n = false) :
    (st.nodeFailureCount + 1 = cfg.clusterScaling.retryThreshold →
        scaleOutLoop cfg env st attempt =
          { exit := LoopExit.disabled,
            state := { st with nodeFailureCount := st.nodeFailureCount + 1 },
            config := disabledConfig cfg,
            calls := [Call.getMostRecentInstance cfg.clusterScaling.autoscalingGroup
                cfg.region,
              Call.verifyNodeHealth n,
              Call.translateIptoID n cfg.region,
              Call.detachInstance cfg.clusterScaling.autoscalingGroup
                (env.translateIptoID attempt n)],
            failedCounter := 1 }) ∧
      (st.nodeFailureCount + 1 ≠ cfg.clusterScaling.retryThreshold →
        scaleOutLoop cfg env st attempt =
          { scaleOutLoop cfg env { st with nodeFailureCount := st.nodeFailureCount + 1 }
              (attempt + 1) with
            calls := Call.getMostRecentInstance cfg.clusterScaling.autoscalingGroup
                cfg.region ::
              Call.verifyNodeHealth n ::
              Call.translateIptoID n cfg.region ::
              Call.terminateInstance (env.translateIptoID attempt n) cfg.region ::
              (scaleOutLoop cfg env
                { st with nodeFailureCount := st.nodeFailureCount + 1 }
                (attempt + 1)).calls,
            failedCounter :=
              (scaleOutLoop cfg env
                { st with nodeFailureCount := st.nodeFailureCount + 1 }
                (attempt + 1)).failedCounter + 1 }) ∧
      (∀ (b : Bool) (f : Nat → Bool),
        scaleOutLoop cfg { env with detachErr := b, terminateErr := f } st attempt =
          scaleOutLoop cfg env st attempt) := by
  refine ⟨loop_step_disable cfg env st attempt n hg hn hh,
    loop_step_terminate cfg env st attempt n hg hn hh, ?_⟩
  intro b f
  unfold scaleOutLoop
  exact scaleOutLoopAux_env_congr { env with detachErr := b, terminateErr := f } env
    rfl rfl rfl rfl _ cfg st attempt

/-- C8 witness: the threshold-reaching iteration at `RetryThreshold = 2`
with one previous failure detaches instance `i-1` and disables
scaling. -/
theorem claim8_witness :
    scaleOutLoop (exCfg 2) exEnvUnhealthy
        { nodeFailureCount := 1, lastScalingEvent := 0 } 7 =
      { exit := LoopExit.disabled,
        state := { nodeFailureCount := 2, lastScalingEvent := 0 },
        config := disabledConfig (exCfg 2),
        calls := [Call.getMostRecentInstance "asg" "eu-west-1",
          Call.verifyNodeHealth "10.0.0.1",
          Call.translateIptoID "10.0.0.1" "eu-west-1",
          Call.detachInstance "asg" "i-1"],
        failedCounter := 1 } :=
  (claim8_theorem (exCfg 2) exEnvUnhealthy
      { nodeFailureCount := 1, lastScalingEvent := 0 } 7 "10.0.0.1"
      (by decide) rfl rfl).1 rfl

lemma eligibleGroupCount_foldl (e : Bool) (job : JobScalingPolicy) :
    ∀ (l : List GroupScalingPolicy) (i : Nat),
      l.foldl (fun i group =>
        if group.scaleDirection = ScalingDirection.dOut ∨
            group.scaleDirection = ScalingDirection.dIn then
          if job.enabled && e then i + 1 else i
        else i) i =
      i + (if job.enabled && e then
        l.countP (fun g => decide (g.scaleDirection = ScalingDirection.dOut ∨
          g.scaleDirection = ScalingDirection.dIn)) else 0) := by
  intro l
  induction l with
  | nil => intro i; simp
  | cons g l ih =>
    intro i
    simp only [List.foldl_cons, List.countP_cons]
    by_cases hp : g.scaleDirection = ScalingDirection.dOut ∨
        g.scaleDirection = ScalingDirection.dIn
    · by_cases hq : (job.enabled && e) = true
      · rw [if_pos hp, if_pos hq, ih]
        simp [hp, hq]
        omega
      · rw [if_pos hp, if_neg hq, ih]
        simp [hq]
    · rw [if_neg hp, ih]
      simp [hp]

/-- The source-side group counter is positive exactly when the spec-side
eligibility predicate holds. -/
lemma eligibleGroupCount_pos_iff (cfg : Config) (job : JobScalingPolicy) :
    0 < eligibleGroupCount cfg.jobScaling.enabled job ↔ jobEligible cfg job = true := by
  unfold eligibleGroupCount jobEligible
  rw [eligibleGroupCount_foldl]
  by_cases hq : (job.enabled && cfg.jobScaling.enabled) = true
  · have hq' := hq
    rw [Bool.and_eq_true] at hq'
    simp only [hq, if_true, Nat.zero_add, List.countP_pos_iff, List.any_eq_true,
      Bool.and_eq_true, Bool.or_eq_true, beq_iff_eq, decide_eq_true_eq]
    constructor
    · rintro ⟨g, hg, hgp⟩
      exact ⟨trivial, g, hg, hgp⟩
    · rintro ⟨h1, g, hg, hgp⟩
      exact ⟨g, hg, hgp⟩
  · have hq0 : (job.enabled && cfg.jobScaling.enabled) = false := by
      revert hq
      cases job.enabled && cfg.jobScaling.enabled <;> simp
    simp [hq, hq0]

lemma jobScaling_flatMap (cfg : Config) (l : List JobScalingPolicy) :
    (l.flatMap fun job =>
      if eligibleGroupCount cfg.jobScaling.enabled job > 0 then
        [Call.jobScale job.jobName]
      else []) =
    (l.filter (jobEligible cfg)).map fun job => Call.jobScale job.jobName := by
  induction l with
  | nil => rfl
  | cons job l ih =>
    simp only [List.flatMap_cons, List.filter_cons]
    by_cases hq : jobEligible cfg job = true
    · have hpos : eligibleGroupCount cfg.jobScaling.enabled job > 0 :=
        (eligibleGroupCount_pos_iff cfg job).mpr hq
      simp [hq, hpos, ih]
    · have hpos : ¬ eligibleGroupCount cfg.jobScaling.enabled job > 0 := by
        rw [gt_iff_lt, eligibleGroupCount_pos_iff]
        exact hq
      simp [hq, hpos, ih]

lemma filter_jobScale_map (l : List JobScalingPolicy) :
    (l.map fun job => Call.jobScale job.jobName).filter Call.isJobScale =
      l.map fun job => Call.jobScale job.jobName := by
  induction l with
  | nil => rfl
  | cons j l ih => simp [List.filter_cons, Call.isJobScale, ih]

/-- C9: in a job-scaling pass (leader, policies fetched), the `JobScale`
submissions are exactly one whole-workload submission per workload that
has at least one group with direction Out or In while both the
workload's flag and the global job-scaling flag are true, in order —
never per-group, and none at all for a workload whose own flag (or the
global flag) is off. -/
theorem claim9_theorem (cfg : Config) (env : JobEnv)
    (hl : env.haveLeadership = true) (hf : env.getPoliciesErr = false) :
    (jobScaling cfg env).filter Call.isJobScale =
      (env.policies.filter (jobEligible cfg)).map fun job =>
        Call.jobScale job.jobName := by
  simp only [jobScaling, hl, hf, Bool.not_true, Bool.false_eq_true, if_false, reduceIte]
  rw [List.filter_append, jobScaling_flatMap, filter_jobScale_map]
  rfl

/-- C9 witness: the workload `web` (one Out group, one None group) is
submitted exactly once; the disabled workload `batch` is not submitted
although its group is eligible. -/
theorem claim9_witness :
    (jobScaling (exCfg 2) exJobEnv).filter Call.isJobScale = [Call.jobScale "web"] :=
  claim9_theorem (exCfg 2) exJobEnv rfl rfl

/-- C10: a verified-healthy scale-out returns before the
`cluster.scale_out_success` counter is emitted, while the fall-through
paths — evaluation reporting no scaling required (or erroring) and the
scale-in branch — do emit it. -/
theorem claim10_theorem :
    (∀ (cfg : Config) (env : Env) (st : ScalingState),
        env.haveLeadership = true → env.evaluateErr = false →
        env.evaluateScale = true →
        (st.lastScalingEvent = 0 ∨
          ¬ env.now < st.lastScalingEvent + cfg.clusterScaling.coolDown) →
        env.scalingDirection = ScalingDirection.dOut →
        cfg.clusterScaling.enabled = true → env.scaleOutErr = false →
        (scaleOutLoop (resolveRegion cfg env) env st 0).exit = LoopExit.healthy →
        (clusterScaling cfg env st).successCounter = false) ∧
      (∀ (cfg : Config) (env : Env) (st : ScalingState),
        env.haveLeadership = true →
        (env.evaluateErr = true ∨ env.evaluateScale = false) →
        (clusterScaling cfg env st).successCounter = true) ∧
      (∀ (cfg : Config) (env : Env) (st : ScalingState),
        env.haveLeadership = true → env.evaluateErr = false →
        env.evaluateScale = true →
        (st.lastScalingEvent = 0 ∨
          ¬ env.now < st.lastScalingEvent + cfg.clusterScaling.coolDown) →
        env.scalingDirection = ScalingDirection.dIn →
        (env.leastAllocatedNodeIP = "" ∨ env.leastAllocatedNodeID = "" ∨
          cfg.clusterScaling.enabled = true) →
        (clusterScaling cfg env st).successCounter = true) := by
  refine ⟨?_, ?_, ?_⟩
  · intro cfg env st hl he hs hcool hdir hen hso hexit
    have hnc : ¬(st.lastScalingEvent ≠ 0 ∧
        env.now < st.lastScalingEvent + (resolveRegion cfg env).clusterScaling.coolDown) := by
      rw [resolveRegion_clusterScaling]
      rcases hcool with h | h
      · exact fun hc => hc.1 h
      · exact fun hc => h hc.2
    simp only [clusterScaling, hl, he, hs, hdir, hen, hso, hnc, hexit, Bool.not_true,
      Bool.false_eq_true, if_false, Bool.or_false, ne_eq, not_false_eq_true,
      and_self, if_true, reduceIte, reduceCtorEq, ite_false]
  · intro cfg env st hl he
    rcases he with h | h <;>
      simp [clusterScaling, hl, h]
  · intro cfg env st hl he hs hcool hdir hnodes
    have hnc : ¬(st.lastScalingEvent ≠ 0 ∧
        env.now < st.lastScalingEvent + (resolveRegion cfg env).clusterScaling.coolDown) := by
      rw [resolveRegion_clusterScaling]
      rcases hcool with h | h
      · exact fun hc => hc.1 h
      · exact fun hc => h hc.2
    rcases hnodes with h | h | h
    · simp [clusterScaling, hl, he, hs, hdir, hnc, h]
    · simp [clusterScaling, hl, he, hs, hdir, hnc, h]
    · simp only [clusterScaling, hl, he, hs, hdir, h, hnc, Bool.not_true,
        Bool.false_eq_true, if_false, Bool.or_false, ne_eq, not_false_eq_true,
        and_self, if_true, reduceIte, reduceCtorEq, ite_false]
      split <;>
        first
          | rfl
          | (split <;> first | rfl | (split <;> rfl))

/-- C10 witness: a verified-healthy scale-out pass does not emit the
counter; an evaluation-error pass and a drain-failing scale-in pass
do. -/
theorem claim10_witness :
    (clusterScaling (exCfg 2) exEnvHealthy initialScalingState).successCounter = false ∧
      (clusterScaling exCfgNoRegion exEnvRegion initialScalingState).successCounter
        = true ∧
      (clusterScaling (exCfg 2) exEnvIn initialScalingState).successCounter = true :=
  ⟨claim10_theorem.1 (exCfg 2) exEnvHealthy initialScalingState rfl rfl rfl
      (Or.inl rfl) rfl rfl rfl (by decide),
    claim10_theorem.2.1 exCfgNoRegion exEnvRegion initialScalingState rfl (Or.inl rfl),
    claim10_theorem.2.2 (exCfg 2) exEnvIn initialScalingState rfl rfl rfl (Or.inl rfl)
      rfl (Or.inr (Or.inr rfl))⟩

end Replicator
